import Mathlib

/-!
Shallow embedding of the sign-in flow of codex-rs/tui/src/onboarding/auth.rs.

External collaborators (credential store, login server, environment lookup,
shutdown handles, cancellation notifications, frame requester) are modelled as
parameters of an environment record and as an explicit effect trace. Rust drop
semantics matter here: ContinueInBrowserState has a Drop impl that invokes the
shutdown handle, so every replacement of a stored SignInState value emits the
drop effects of the value being replaced.
-/

namespace OnboardingAuth

/-- Modelled from the spec: the forced-login configuration from
codex_protocol::config_types (not under src); auth.rs uses exactly the two
variants Chatgpt and Api, with the unrestricted case expressed as None. -/
inductive ForcedLoginMethod
  | Chatgpt
  | Api
deriving DecidableEq, Repr

/-- Modelled from the spec: codex_core::auth::AuthMode (not under src);
auth.rs uses exactly the variants ApiKey and Chatgpt. -/
inductive AuthMode
  | ApiKey
  | Chatgpt
deriving DecidableEq, Repr

/-- Modelled from the spec: crate::LoginStatus (not under src); auth.rs uses
exactly the variants NotAuthenticated and AuthMode(mode). -/
inductive LoginStatus
  | NotAuthenticated
  | AuthMode (mode : AuthMode)
deriving DecidableEq, Repr

inductive SignInOption
  | ChatGpt
  | DeviceCode
  | ApiKey
deriving DecidableEq, Repr

/-- The constant API_KEY_DISABLED_MESSAGE of auth.rs. -/
def API_KEY_DISABLED_MESSAGE : String := "API key login is disabled."

structure ApiKeyInputState where
  value : String
  prepopulated_from_env : Bool
deriving DecidableEq, Repr

/-- Modelled from the spec: codex_login::DeviceCode (not under src), the
one-time user code handed out by the device-code flow. Its contents are opaque
to auth.rs. -/
structure DeviceCode where
  user_code : String
  verification_url : String
deriving DecidableEq, Repr

/-- ContinueInBrowserState of auth.rs. The codex_login::ShutdownHandle (not
under src) is modelled by a numeric identity; invoking shutdown on it is an
observable effect. -/
structure ContinueInBrowserState where
  auth_url : String
  shutdown_flag : Option Nat
deriving DecidableEq, Repr

/-- ContinueWithDeviceCodeState of auth.rs. The tokio Notify used for
cancellation is modelled by a numeric identity. -/
structure ContinueWithDeviceCodeState where
  device_code : Option DeviceCode
  cancel : Option Nat
deriving DecidableEq, Repr

inductive SignInState
  | PickMode
  | ChatGptContinueInBrowser (s : ContinueInBrowserState)
  | ChatGptDeviceCode (s : ContinueWithDeviceCodeState)
  | ChatGptSuccessMessage
  | ChatGptSuccess
  | ApiKeyEntry (s : ApiKeyInputState)
  | ApiKeyConfigured
deriving DecidableEq, Repr

/-- Observable interactions with the external collaborators. -/
inductive Effect
  | shutdown (handle : Nat)
  | notifyCancel (notify : Nat)
  | storeWrite (key : String)
  | listenerStart
  | spawnTask
  | deviceFlowStart
  | authReload
  | scheduleFrame
deriving DecidableEq, Repr

/-- The Drop impl for ContinueInBrowserState: dropping a SignInState value that
holds a browser-flow state invokes shutdown on the handle when present. No
other variant has drop side effects. -/
def SignInState.dropEffects : SignInState → List Effect
  | SignInState.ChatGptContinueInBrowser s =>
    match s.shutdown_flag with
    | some h => [Effect.shutdown h]
    | none => []
  | _ => []

/-- Overwriting the RwLock slot drops the previous value (running its drop
effects) and stores the new one. -/
def writeSignInState (old new : SignInState) : SignInState × List Effect :=
  (new, old.dropEffects)

/-- AuthModeWidget of auth.rs, restricted to the fields the state machine
reads or writes. The fields codex_home, cli_auth_credentials_store_mode,
auth_manager, forced_chatgpt_workspace_id and animations_enabled are passed
through to the external collaborators only and are absorbed into the
environment; request_frame is modelled by the scheduleFrame effect. -/
structure AuthModeWidget where
  highlighted_mode : SignInOption
  error : Option String
  sign_in_state : SignInState
  login_status : LoginStatus
  forced_login_method : Option ForcedLoginMethod
deriving DecidableEq, Repr

/-- The return value of codex_login::run_login_server: the authorization URL
and the cancel handle of the spawned listener. -/
structure LoginServerChild where
  auth_url : String
  cancel_handle : Nat

/-- The ambient environment: locale selection for i18n::tr, the result of
read_openai_api_key_from_env, the outcome of login_with_api_key per key, the
outcome of run_login_server, and the identity of the Notify allocated for a
device-code flow. -/
structure Env where
  useZh : Bool
  envApiKey : Option String
  store : String → Except String Unit
  loginServer : Except String LoginServerChild
  notifyId : Nat

/-- i18n::tr, with use_zh_cn read from the environment. -/
def tr (env : Env) (en zh_cn : String) : String :=
  if env.useZh then zh_cn else en

/-- Models Rust str::trim (whitespace stripped from both ends), computed on
the character list so that it evaluates by kernel reduction. -/
def strTrim (s : String) : String :=
  String.mk (((s.data.dropWhile Char.isWhitespace).reverse.dropWhile
    Char.isWhitespace).reverse)

/-- Models Rust String::pop: remove the last character, if any. -/
def strPop (s : String) : String :=
  String.mk s.data.dropLast

def is_api_login_allowed (w : AuthModeWidget) : Bool :=
  match w.forced_login_method with
  | some ForcedLoginMethod.Chatgpt => false
  | _ => true

def is_chatgpt_login_allowed (w : AuthModeWidget) : Bool :=
  match w.forced_login_method with
  | some ForcedLoginMethod.Api => false
  | _ => true

def displayed_sign_in_options (w : AuthModeWidget) : List SignInOption :=
  [SignInOption.ChatGpt]
    ++ (if is_chatgpt_login_allowed w then [SignInOption.DeviceCode] else [])
    ++ (if is_api_login_allowed w then [SignInOption.ApiKey] else [])

def selectable_sign_in_options (w : AuthModeWidget) : List SignInOption :=
  (if is_chatgpt_login_allowed w then
      [SignInOption.ChatGpt, SignInOption.DeviceCode]
    else [])
    ++ (if is_api_login_allowed w then [SignInOption.ApiKey] else [])

/-- AuthModeWidget::move_highlight. Int emod coincides with rem_euclid. -/
def move_highlight (w : AuthModeWidget) (delta : Int) : AuthModeWidget :=
  let options := selectable_sign_in_options w
  if options.isEmpty then w
  else
    let current_index : Nat :=
      (options.findIdx? (fun o => decide (o = w.highlighted_mode))).getD 0
    let next_index : Nat :=
      (((current_index : Int) + delta) % (options.length : Int)).toNat
    { w with highlighted_mode := options.getD next_index w.highlighted_mode }

/-- AuthModeWidget::disallow_api_login. -/
def disallow_api_login (env : Env) (w : AuthModeWidget) :
    AuthModeWidget × List Effect :=
  let (st, dropFx) := writeSignInState w.sign_in_state SignInState.PickMode
  ({ w with
      highlighted_mode := SignInOption.ChatGpt,
      error := some (tr env API_KEY_DISABLED_MESSAGE "API key 登录已禁用。"),
      sign_in_state := st },
    dropFx ++ [Effect.scheduleFrame])

/-- AuthModeWidget::start_api_key_entry. -/
def start_api_key_entry (env : Env) (w : AuthModeWidget) :
    AuthModeWidget × List Effect :=
  if !is_api_login_allowed w then
    disallow_api_login env w
  else
    let prefill_from_env := env.envApiKey
    match w.sign_in_state with
    | SignInState.ApiKeyEntry state =>
      let state' :=
        if state.value.isEmpty then
          match prefill_from_env with
          | some prefill =>
            { state with value := prefill, prepopulated_from_env := true }
          | none => { state with prepopulated_from_env := false }
        else state
      ({ w with error := none, sign_in_state := SignInState.ApiKeyEntry state' },
        [Effect.scheduleFrame])
    | _ =>
      let (st, dropFx) := writeSignInState w.sign_in_state
        (SignInState.ApiKeyEntry
          { value := prefill_from_env.getD "",
            prepopulated_from_env := prefill_from_env.isSome })
      ({ w with error := none, sign_in_state := st },
        dropFx ++ [Effect.scheduleFrame])

/-- AuthModeWidget::save_api_key. The call to login_with_api_key is the
storeWrite effect; its outcome comes from the environment. -/
def save_api_key (env : Env) (w : AuthModeWidget) (api_key : String) :
    AuthModeWidget × List Effect :=
  if !is_api_login_allowed w then
    disallow_api_login env w
  else
    match env.store api_key with
    | Except.ok _ =>
      let (st, dropFx) := writeSignInState w.sign_in_state SignInState.ApiKeyConfigured
      ({ w with
          error := none,
          login_status := LoginStatus.AuthMode AuthMode.ApiKey,
          sign_in_state := st },
        [Effect.storeWrite api_key, Effect.authReload] ++ dropFx
          ++ [Effect.scheduleFrame])
    | Except.error err =>
      let errorMsg :=
        some (tr env "Failed to save API key:" "保存 API key 失败：" ++ " " ++ err)
      match w.sign_in_state with
      | SignInState.ApiKeyEntry existing =>
        let existing' : ApiKeyInputState :=
          { value :=
              if existing.value.isEmpty then existing.value ++ api_key
              else existing.value,
            prepopulated_from_env := false }
        ({ w with
            error := errorMsg,
            sign_in_state := SignInState.ApiKeyEntry existing' },
          [Effect.storeWrite api_key, Effect.scheduleFrame])
      | _ =>
        let (st, dropFx) := writeSignInState w.sign_in_state
          (SignInState.ApiKeyEntry
            { value := api_key, prepopulated_from_env := false })
        ({ w with error := errorMsg, sign_in_state := st },
          [Effect.storeWrite api_key] ++ dropFx ++ [Effect.scheduleFrame])

/-- AuthModeWidget::handle_existing_chatgpt_login. -/
def handle_existing_chatgpt_login (w : AuthModeWidget) :
    Bool × AuthModeWidget × List Effect :=
  match w.login_status with
  | LoginStatus.AuthMode AuthMode.Chatgpt =>
    let (st, dropFx) := writeSignInState w.sign_in_state SignInState.ChatGptSuccess
    (true, { w with sign_in_state := st }, dropFx ++ [Effect.scheduleFrame])
  | _ => (false, w, [])

/-- AuthModeWidget::start_chatgpt_login, up to the spawn of the background
task. Calling run_login_server is the listenerStart effect; on success the
task body (modelled separately below) runs asynchronously. -/
def start_chatgpt_login (env : Env) (w : AuthModeWidget) :
    AuthModeWidget × List Effect :=
  let (handled, w1, fx) := handle_existing_chatgpt_login w
  if handled then (w1, fx)
  else
    let w2 := { w1 with error := none }
    match env.loginServer with
    | Except.ok _child => (w2, fx ++ [Effect.listenerStart, Effect.spawnTask])
    | Except.error e =>
      let (st, dropFx) := writeSignInState w2.sign_in_state SignInState.PickMode
      ({ w2 with sign_in_state := st, error := some e },
        fx ++ [Effect.listenerStart] ++ dropFx ++ [Effect.scheduleFrame])

/-- First step of the spawned browser-flow task: store the pending state
carrying the authorization URL and the cancel handle of the listener. -/
def browser_task_set_state (child : LoginServerChild) (st : SignInState) :
    SignInState × List Effect :=
  let (st', dropFx) := writeSignInState st
    (SignInState.ChatGptContinueInBrowser
      { auth_url := child.auth_url, shutdown_flag := some child.cancel_handle })
  (st', dropFx ++ [Effect.scheduleFrame])

/-- Final step of the spawned browser-flow task, after block_until_done
resolves: on success reload the auth manager and show the success message, on
failure or cancellation fall back to PickMode. -/
def browser_task_finish (ok : Bool) (st : SignInState) :
    SignInState × List Effect :=
  if ok then
    let (st', dropFx) := writeSignInState st SignInState.ChatGptSuccessMessage
    (st', [Effect.authReload] ++ dropFx ++ [Effect.scheduleFrame])
  else
    let (st', dropFx) := writeSignInState st SignInState.PickMode
    (st', dropFx ++ [Effect.scheduleFrame])

/-- Modelled from the spec: headless_chatgpt_login::start_headless_chatgpt_login
lives in onboarding/headless_chatgpt_login.rs, which is not among the sources
here. Per the spec (section 4.4), starting the device-code flow spawns the
poller with a fresh cancellation notification and enters the device-code
pending state with no device code yet. -/
def start_headless_chatgpt_login (env : Env) (w : AuthModeWidget) :
    AuthModeWidget × List Effect :=
  let (st, dropFx) := writeSignInState w.sign_in_state
    (SignInState.ChatGptDeviceCode
      { device_code := none, cancel := some env.notifyId })
  ({ w with sign_in_state := st },
    [Effect.deviceFlowStart, Effect.spawnTask] ++ dropFx ++ [Effect.scheduleFrame])

/-- AuthModeWidget::start_device_code_login. -/
def start_device_code_login (env : Env) (w : AuthModeWidget) :
    AuthModeWidget × List Effect :=
  let (handled, w1, fx) := handle_existing_chatgpt_login w
  if handled then (w1, fx)
  else
    let w2 := { w1 with error := none }
    let (w3, fx2) := start_headless_chatgpt_login env w2
    (w3, fx ++ fx2)

/-- AuthModeWidget::handle_sign_in_option. -/
def handle_sign_in_option (env : Env) (w : AuthModeWidget)
    (option : SignInOption) : AuthModeWidget × List Effect :=
  match option with
  | SignInOption.ChatGpt =>
    if is_chatgpt_login_allowed w then start_chatgpt_login env w else (w, [])
  | SignInOption.DeviceCode =>
    if is_chatgpt_login_allowed w then start_device_code_login env w else (w, [])
  | SignInOption.ApiKey =>
    if is_api_login_allowed w then start_api_key_entry env w
    else disallow_api_login env w

/-- AuthModeWidget::select_option_by_index. -/
def select_option_by_index (env : Env) (w : AuthModeWidget) (index : Nat) :
    AuthModeWidget × List Effect :=
  match (displayed_sign_in_options w).get? index with
  | some option => handle_sign_in_option env w option
  | none => (w, [])

inductive KeyCode
  | Up
  | Down
  | Enter
  | Esc
  | Backspace
  | Char (c : Char)
  | Other
deriving DecidableEq, Repr

inductive KeyEventKind
  | Press
  | Release
  | Repeat
deriving DecidableEq, Repr

structure KeyModifiers where
  superKey : Bool
  control : Bool
  alt : Bool
deriving DecidableEq, Repr

def KeyModifiers.empty : KeyModifiers :=
  { superKey := false, control := false, alt := false }

structure KeyEvent where
  code : KeyCode
  kind : KeyEventKind
  modifiers : KeyModifiers
deriving DecidableEq, Repr

/-- AuthModeWidget::handle_api_key_entry_key_event. Returns whether the event
was consumed (true exactly when the state is ApiKeyEntry). -/
def handle_api_key_entry_key_event (env : Env) (w : AuthModeWidget)
    (key_event : KeyEvent) : Bool × AuthModeWidget × List Effect :=
  match w.sign_in_state with
  | SignInState.ApiKeyEntry state =>
    match key_event.code with
    | KeyCode.Esc =>
      let (st, dropFx) :=
        writeSignInState (SignInState.ApiKeyEntry state) SignInState.PickMode
      (true, { w with sign_in_state := st, error := none },
        dropFx ++ [Effect.scheduleFrame])
    | KeyCode.Enter =>
      let trimmed := strTrim state.value
      if trimmed.isEmpty then
        (true,
          { w with error := some (tr env "API key cannot be empty" "API key 不能为空") },
          [Effect.scheduleFrame])
      else
        let (w', fx) := save_api_key env w trimmed
        (true, w', fx)
    | KeyCode.Backspace =>
      let state' : ApiKeyInputState :=
        if state.prepopulated_from_env then
          { value := "", prepopulated_from_env := false }
        else
          { state with value := strPop state.value }
      (true,
        { w with sign_in_state := SignInState.ApiKeyEntry state', error := none },
        [Effect.scheduleFrame])
    | KeyCode.Char c =>
      if key_event.kind = KeyEventKind.Press
          ∧ key_event.modifiers.superKey = false
          ∧ key_event.modifiers.control = false
          ∧ key_event.modifiers.alt = false then
        let base : ApiKeyInputState :=
          if state.prepopulated_from_env then
            { value := "", prepopulated_from_env := false }
          else state
        let state' : ApiKeyInputState := { base with value := base.value.push c }
        (true,
          { w with sign_in_state := SignInState.ApiKeyEntry state', error := none },
          [Effect.scheduleFrame])
      else (true, w, [])
    | _ => (true, w, [])
  | _ => (false, w, [])

/-- AuthModeWidget::handle_api_key_entry_paste. -/
def handle_api_key_entry_paste (w : AuthModeWidget) (pasted : String) :
    Bool × AuthModeWidget × List Effect :=
  let trimmed := strTrim pasted
  if trimmed.isEmpty then (false, w, [])
  else
    match w.sign_in_state with
    | SignInState.ApiKeyEntry state =>
      let state' : ApiKeyInputState :=
        if state.prepopulated_from_env then
          { value := trimmed, prepopulated_from_env := false }
        else
          { state with value := state.value ++ trimmed }
      (true,
        { w with sign_in_state := SignInState.ApiKeyEntry state', error := none },
        [Effect.scheduleFrame])
    | _ => (false, w, [])

/-- KeyboardHandler::handle_key_event for AuthModeWidget. The Enter arm first
takes a clone of the current state; that clone is dropped when the arm ends,
which runs its drop effects (the derived Clone on ContinueInBrowserState
duplicates the shutdown handle, and the Drop impl fires on the clone too). -/
def handle_key_event (env : Env) (w : AuthModeWidget) (key_event : KeyEvent) :
    AuthModeWidget × List Effect :=
  let (handled, w0, fx0) := handle_api_key_entry_key_event env w key_event
  if handled then (w0, fx0)
  else
    match key_event.code with
    | KeyCode.Up => (move_highlight w0 (-1), [])
    | KeyCode.Down => (move_highlight w0 1, [])
    | KeyCode.Char c =>
      if c = 'k' then (move_highlight w0 (-1), [])
      else if c = 'j' then (move_highlight w0 1, [])
      else if c = '1' then select_option_by_index env w0 0
      else if c = '2' then select_option_by_index env w0 1
      else if c = '3' then select_option_by_index env w0 2
      else (w0, [])
    | KeyCode.Enter =>
      let snapshot := w0.sign_in_state
      let (w1, fx1) :=
        match snapshot with
        | SignInState.PickMode => handle_sign_in_option env w0 w0.highlighted_mode
        | SignInState.ChatGptSuccessMessage =>
          let (st, dropFx) :=
            writeSignInState w0.sign_in_state SignInState.ChatGptSuccess
          ({ w0 with sign_in_state := st }, dropFx)
        | _ => (w0, [])
      (w1, fx1 ++ snapshot.dropEffects)
    | KeyCode.Esc =>
      match w0.sign_in_state with
      | SignInState.ChatGptContinueInBrowser _ =>
        let (st, dropFx) := writeSignInState w0.sign_in_state SignInState.PickMode
        ({ w0 with sign_in_state := st }, dropFx ++ [Effect.scheduleFrame])
      | SignInState.ChatGptDeviceCode state =>
        let notifyFx :=
          match state.cancel with
          | some n => [Effect.notifyCancel n]
          | none => []
        let (st, dropFx) := writeSignInState w0.sign_in_state SignInState.PickMode
        ({ w0 with sign_in_state := st },
          notifyFx ++ dropFx ++ [Effect.scheduleFrame])
      | _ => (w0, [])
    | _ => (w0, [])

/-- KeyboardHandler::handle_paste for AuthModeWidget. -/
def handle_paste (w : AuthModeWidget) (pasted : String) :
    AuthModeWidget × List Effect :=
  let (_, w', fx) := handle_api_key_entry_paste w pasted
  (w', fx)

/-- An effect trace starts a background task when it invokes the login server,
spawns a task, or starts the device-code flow. -/
def startsBackgroundTask (es : List Effect) : Bool :=
  es.any (fun e =>
    match e with
    | Effect.listenerStart => true
    | Effect.spawnTask => true
    | Effect.deviceFlowStart => true
    | _ => false)

/-- Number of shutdown invocations for a given handle in an effect trace. -/
def shutdownCount (h : Nat) (es : List Effect) : Nat :=
  es.countP (fun e => decide (e = Effect.shutdown h))

/-- Whether an option passes the policy flag that guards it in
handle_sign_in_option. -/
def optionAllowed (w : AuthModeWidget) : SignInOption → Bool
  | SignInOption.ChatGpt => is_chatgpt_login_allowed w
  | SignInOption.DeviceCode => is_chatgpt_login_allowed w
  | SignInOption.ApiKey => is_api_login_allowed w

/-- Concrete English environment used by witnesses: a working credential
store and login server. -/
def envEn : Env :=
  { useZh := false, envApiKey := some "sk-env",
    store := fun _ => Except.ok (),
    loginServer := Except.ok { auth_url := "https://auth.example", cancel_handle := 5 },
    notifyId := 7 }

/-- Like envEn but the credential store rejects every write. -/
def envStoreFail : Env :=
  { envEn with store := fun _ => Except.error "disk full" }

/-- A widget sitting in PickMode under a given forced-login configuration. -/
def pickWidget (flm : Option ForcedLoginMethod) : AuthModeWidget :=
  { highlighted_mode := SignInOption.ChatGpt, error := none,
    sign_in_state := SignInState.PickMode,
    login_status := LoginStatus.NotAuthenticated, forced_login_method := flm }

/-- The escape key event. -/
def escEvent : KeyEvent :=
  { code := KeyCode.Esc, kind := KeyEventKind.Press, modifiers := KeyModifiers.empty }

/-- The enter key event. -/
def enterEvent : KeyEvent :=
  { code := KeyCode.Enter, kind := KeyEventKind.Press, modifiers := KeyModifiers.empty }

/-- Drop effects are either empty or a single shutdown invocation. -/
theorem dropEffects_eq_nil_or_shutdown (st : SignInState) :
    st.dropEffects = [] ∨ ∃ h, st.dropEffects = [Effect.shutdown h] := by
  cases st with
  | ChatGptContinueInBrowser s =>
    cases hs : s.shutdown_flag with
    | none => left; simp [SignInState.dropEffects, hs]
    | some h => right; exact ⟨h, by simp [SignInState.dropEffects, hs]⟩
  | PickMode => left; rfl
  | ChatGptDeviceCode s => left; rfl
  | ChatGptSuccessMessage => left; rfl
  | ChatGptSuccess => left; rfl
  | ApiKeyEntry s => left; rfl
  | ApiKeyConfigured => left; rfl

/-- Dropping a state never starts a background task. -/
theorem startsBackgroundTask_dropEffects (st : SignInState) :
    startsBackgroundTask st.dropEffects = false := by
  rcases dropEffects_eq_nil_or_shutdown st with h | ⟨n, h⟩ <;>
    simp [h, startsBackgroundTask]

/-- Dropping a state never writes to the credential store. -/
theorem storeWrite_notin_dropEffects (st : SignInState) (k : String) :
    Effect.storeWrite k ∉ st.dropEffects := by
  rcases dropEffects_eq_nil_or_shutdown st with h | ⟨n, h⟩ <;> simp [h]

/-- C2: leaving the ChatGptContinueInBrowser state invokes the shutdown of the
listener exactly once. User cancellation (Esc) replaces the state and the drop
of the replaced value shuts the listener down once; a second cancellation in
quick succession, and a background-task completion racing after the
cancellation, invoke no further shutdown; a background-task completion that
itself replaces the pending state, any other replacement of the pending state,
and the teardown drop of the machine each invoke the shutdown exactly once. -/
theorem C2_listener_shutdown_exactly_once (env : Env) (hm : SignInOption)
    (e0 : Option String) (ls : LoginStatus) (flm : Option ForcedLoginMethod)
    (url : String) (h : Nat) :
    let pending : SignInState :=
      SignInState.ChatGptContinueInBrowser { auth_url := url, shutdown_flag := some h }
    let w : AuthModeWidget :=
      { highlighted_mode := hm, error := e0, sign_in_state := pending,
        login_status := ls, forced_login_method := flm }
    ((handle_key_event env w escEvent).1.sign_in_state = SignInState.PickMode
        ∧ shutdownCount h (handle_key_event env w escEvent).2 = 1)
    ∧ shutdownCount h
        (handle_key_event env (handle_key_event env w escEvent).1 escEvent).2 = 0
    ∧ (∀ ok : Bool, shutdownCount h
        (browser_task_finish ok (handle_key_event env w escEvent).1.sign_in_state).2 = 0)
    ∧ (∀ ok : Bool, shutdownCount h (browser_task_finish ok pending).2 = 1)
    ∧ (∀ new : SignInState, shutdownCount h (writeSignInState pending new).2 = 1)
    ∧ shutdownCount h pending.dropEffects = 1 := by
  refine ⟨⟨?_, ?_⟩, ?_, ?_, ?_, ?_, ?_⟩
  · simp [handle_key_event, handle_api_key_entry_key_event, writeSignInState,
      SignInState.dropEffects, escEvent]
  · simp [handle_key_event, handle_api_key_entry_key_event, writeSignInState,
      SignInState.dropEffects, shutdownCount, escEvent]
  · simp [handle_key_event, handle_api_key_entry_key_event, writeSignInState,
      SignInState.dropEffects, shutdownCount, escEvent]
  · intro ok
    cases ok <;>
      simp [handle_key_event, handle_api_key_entry_key_event, writeSignInState,
        SignInState.dropEffects, shutdownCount, browser_task_finish, escEvent]
  · intro ok
    cases ok <;>
      simp [browser_task_finish, writeSignInState, SignInState.dropEffects,
        shutdownCount]
  · intro new
    simp [writeSignInState, SignInState.dropEffects, shutdownCount]
  · simp [SignInState.dropEffects, shutdownCount]

/-- C3: counterexample. The Esc key from the ApiKeyEntry state is not a no-op:
it transitions to PickMode and clears the error, contradicting the claim that
cancel is a no-op (state, error and highlight unchanged) in every state other
than ChatGptContinueInBrowser and ChatGptDeviceCode. -/
theorem C3_counterexample :
    let w : AuthModeWidget :=
      { highlighted_mode := SignInOption.ChatGpt, error := some "boom",
        sign_in_state := SignInState.ApiKeyEntry
          { value := "abc", prepopulated_from_env := false },
        login_status := LoginStatus.NotAuthenticated, forced_login_method := none }
    (∀ s, w.sign_in_state ≠ SignInState.ChatGptContinueInBrowser s)
    ∧ (∀ s, w.sign_in_state ≠ SignInState.ChatGptDeviceCode s)
    ∧ (handle_key_event envEn w escEvent).1.sign_in_state = SignInState.PickMode
    ∧ (handle_key_event envEn w escEvent).1.error = none
    ∧ (handle_key_event envEn w escEvent).1.sign_in_state ≠ w.sign_in_state
    ∧ (handle_key_event envEn w escEvent).1.error ≠ w.error := by
  refine ⟨fun s => by simp, fun s => by simp, ?_, ?_, ?_, ?_⟩ <;> decide

/-- C3 (amended): the Esc key from ChatGptContinueInBrowser signals the cancel
handle of the listener (through the drop of the replaced state value) and
transitions to PickMode; from ChatGptDeviceCode it signals the cancellation
notification of the poller and transitions to PickMode; from ApiKeyEntry it
returns to PickMode and clears the error; from every remaining state it is a
no-op. -/
theorem C3_amended_cancel (env : Env) (hm : SignInOption) (e0 : Option String)
    (ls : LoginStatus) (flm : Option ForcedLoginMethod) (url : String)
    (hdl : Nat) (dc : Option DeviceCode) (n : Nat) (s : ApiKeyInputState) :
    let wOf : SignInState → AuthModeWidget := fun st =>
      { highlighted_mode := hm, error := e0, sign_in_state := st,
        login_status := ls, forced_login_method := flm }
    handle_key_event env
        (wOf (SignInState.ChatGptContinueInBrowser
          { auth_url := url, shutdown_flag := some hdl })) escEvent
      = (wOf SignInState.PickMode, [Effect.shutdown hdl, Effect.scheduleFrame])
    ∧ handle_key_event env
        (wOf (SignInState.ChatGptDeviceCode { device_code := dc, cancel := some n }))
        escEvent
      = (wOf SignInState.PickMode, [Effect.notifyCancel n, Effect.scheduleFrame])
    ∧ handle_key_event env (wOf (SignInState.ApiKeyEntry s)) escEvent
      = ({ wOf SignInState.PickMode with error := none }, [Effect.scheduleFrame])
    ∧ handle_key_event env (wOf SignInState.PickMode) escEvent
      = (wOf SignInState.PickMode, [])
    ∧ handle_key_event env (wOf SignInState.ChatGptSuccessMessage) escEvent
      = (wOf SignInState.ChatGptSuccessMessage, [])
    ∧ handle_key_event env (wOf SignInState.ChatGptSuccess) escEvent
      = (wOf SignInState.ChatGptSuccess, [])
    ∧ handle_key_event env (wOf SignInState.ApiKeyConfigured) escEvent
      = (wOf SignInState.ApiKeyConfigured, []) := by
  refine ⟨?_, ?_, ?_, ?_, ?_, ?_, ?_⟩ <;>
    simp [handle_key_event, handle_api_key_entry_key_event, writeSignInState,
      SignInState.dropEffects, escEvent]

/-- C5: starting the ChatGPT browser flow or the device-code flow while the
session is already authenticated via ChatGPT OAuth goes straight to the
ChatGptSuccess state; the start routine of the local callback listener is
never invoked and no background task is started. -/
theorem C5_short_circuit_when_authenticated (env : Env) (hm : SignInOption)
    (e0 : Option String) (st : SignInState) (flm : Option ForcedLoginMethod) :
    let w : AuthModeWidget :=
      { highlighted_mode := hm, error := e0, sign_in_state := st,
        login_status := LoginStatus.AuthMode AuthMode.Chatgpt,
        forced_login_method := flm }
    start_chatgpt_login env w
      = ({ w with sign_in_state := SignInState.ChatGptSuccess },
         st.dropEffects ++ [Effect.scheduleFrame])
    ∧ start_device_code_login env w
      = ({ w with sign_in_state := SignInState.ChatGptSuccess },
         st.dropEffects ++ [Effect.scheduleFrame])
    ∧ startsBackgroundTask (start_chatgpt_login env w).2 = false
    ∧ Effect.listenerStart ∉ (start_chatgpt_login env w).2
    ∧ startsBackgroundTask (start_device_code_login env w).2 = false
    ∧ Effect.listenerStart ∉ (start_device_code_login env w).2 := by
  have h1 : startsBackgroundTask (st.dropEffects ++ [Effect.scheduleFrame]) = false := by
    rcases dropEffects_eq_nil_or_shutdown st with h | ⟨k, h⟩ <;>
      simp [h, startsBackgroundTask]
  have h2 : Effect.listenerStart ∉ st.dropEffects ++ [Effect.scheduleFrame] := by
    rcases dropEffects_eq_nil_or_shutdown st with h | ⟨k, h⟩ <;> simp [h]
  refine ⟨?_, ?_, ?_, ?_, ?_, ?_⟩ <;>
    simp [start_chatgpt_login, start_device_code_login,
      handle_existing_chatgpt_login, writeSignInState, h1, h2]

/-- C10: with forced-login method Chatgpt, save_api_key refuses to persist for
every key string: the credential store is never invoked, login_status is
unchanged, the state is set to PickMode, the highlight is reset to ChatGpt and
the localized API-key-disabled error is surfaced. -/
theorem C10_save_api_key_blocked_when_chatgpt_forced (env : Env)
    (hm : SignInOption) (e0 : Option String) (st : SignInState)
    (ls : LoginStatus) (key : String) :
    let w : AuthModeWidget :=
      { highlighted_mode := hm, error := e0, sign_in_state := st,
        login_status := ls, forced_login_method := some ForcedLoginMethod.Chatgpt }
    save_api_key env w key
      = ({ highlighted_mode := SignInOption.ChatGpt,
           error := some (tr env API_KEY_DISABLED_MESSAGE "API key 登录已禁用。"),
           sign_in_state := SignInState.PickMode, login_status := ls,
           forced_login_method := some ForcedLoginMethod.Chatgpt },
         st.dropEffects ++ [Effect.scheduleFrame])
    ∧ (∀ k, Effect.storeWrite k ∉ (save_api_key env w key).2)
    ∧ (save_api_key env w key).1.login_status = ls := by
  have hsave : save_api_key env
      { highlighted_mode := hm, error := e0, sign_in_state := st,
        login_status := ls,
        forced_login_method := some ForcedLoginMethod.Chatgpt } key
      = ({ highlighted_mode := SignInOption.ChatGpt,
           error := some (tr env API_KEY_DISABLED_MESSAGE "API key 登录已禁用。"),
           sign_in_state := SignInState.PickMode, login_status := ls,
           forced_login_method := some ForcedLoginMethod.Chatgpt },
         st.dropEffects ++ [Effect.scheduleFrame]) := by
    simp [save_api_key, is_api_login_allowed, disallow_api_login, writeSignInState]
  refine ⟨hsave, ?_, ?_⟩
  · intro k
    rw [hsave]
    simpa using storeWrite_notin_dropEffects st k
  · rw [hsave]

/-- C8: for every forced-login configuration the displayed and selectable
option lists are consistent with the two allow-flags: ChatGpt is always
displayed, DeviceCode is displayed and ChatGpt/DeviceCode are selectable
exactly when ChatGPT login is allowed, ApiKey is displayed and selectable
exactly when API-key login is allowed; in particular the API-key-only
configuration offers only ApiKey as selectable and the ChatGPT-only
configuration offers only ChatGpt and DeviceCode. -/
theorem C8_option_lists_consistent (w : AuthModeWidget) :
    (SignInOption.ChatGpt ∈ displayed_sign_in_options w)
    ∧ (SignInOption.DeviceCode ∈ displayed_sign_in_options w
        ↔ is_chatgpt_login_allowed w = true)
    ∧ (SignInOption.ApiKey ∈ displayed_sign_in_options w
        ↔ is_api_login_allowed w = true)
    ∧ (SignInOption.ChatGpt ∈ selectable_sign_in_options w
        ↔ is_chatgpt_login_allowed w = true)
    ∧ (SignInOption.DeviceCode ∈ selectable_sign_in_options w
        ↔ is_chatgpt_login_allowed w = true)
    ∧ (SignInOption.ApiKey ∈ selectable_sign_in_options w
        ↔ is_api_login_allowed w = true)
    ∧ selectable_sign_in_options w
        = (match w.forced_login_method with
           | some ForcedLoginMethod.Api => [SignInOption.ApiKey]
           | some ForcedLoginMethod.Chatgpt =>
             [SignInOption.ChatGpt, SignInOption.DeviceCode]
           | none =>
             [SignInOption.ChatGpt, SignInOption.DeviceCode, SignInOption.ApiKey])
    ∧ displayed_sign_in_options w
        = (match w.forced_login_method with
           | some ForcedLoginMethod.Api =>
             [SignInOption.ChatGpt, SignInOption.ApiKey]
           | some ForcedLoginMethod.Chatgpt =>
             [SignInOption.ChatGpt, SignInOption.DeviceCode]
           | none =>
             [SignInOption.ChatGpt, SignInOption.DeviceCode, SignInOption.ApiKey]) := by
  cases hf : w.forced_login_method with
  | none =>
    refine ⟨?_, ?_, ?_, ?_, ?_, ?_, ?_, ?_⟩ <;>
      simp [displayed_sign_in_options, selectable_sign_in_options,
        is_chatgpt_login_allowed, is_api_login_allowed, hf]
  | some f =>
    cases f <;>
      refine ⟨?_, ?_, ?_, ?_, ?_, ?_, ?_, ?_⟩ <;>
        simp [displayed_sign_in_options, selectable_sign_in_options,
          is_chatgpt_login_allowed, is_api_login_allowed, hf]

/-- C9: move_highlight cycles over the selectable options by modular
arithmetic: when the highlighted option sits at index i, moving by delta lands
on the option at index (i + delta) mod length, wrapping in both directions; in
the unrestricted configuration with options [ChatGpt, DeviceCode, ApiKey],
moving by -1 from ChatGpt yields ApiKey and moving by +1 from ApiKey yields
ChatGpt. -/
theorem C9_move_highlight_wraps (w : AuthModeWidget) (delta : Int) (i : Nat)
    (hi : (selectable_sign_in_options w).findIdx?
        (fun o => decide (o = w.highlighted_mode)) = some i) :
    (selectable_sign_in_options w).get?
        ((((i : Int) + delta)
          % ((selectable_sign_in_options w).length : Int)).toNat)
      = some (move_highlight w delta).highlighted_mode
    ∧ (move_highlight { pickWidget none with
          highlighted_mode := SignInOption.ChatGpt } (-1)).highlighted_mode
        = SignInOption.ApiKey
    ∧ (move_highlight { pickWidget none with
          highlighted_mode := SignInOption.ApiKey } 1).highlighted_mode
        = SignInOption.ChatGpt := by
  refine ⟨?_, by decide, by decide⟩
  have hlen : 0 < (selectable_sign_in_options w).length := by
    cases hopt : selectable_sign_in_options w with
    | nil => rw [hopt] at hi; simp at hi
    | cons a l => simp
  have hne : (selectable_sign_in_options w).isEmpty = false := by
    cases hopt : selectable_sign_in_options w with
    | nil => rw [hopt] at hlen; simp at hlen
    | cons a l => simp [List.isEmpty]
  have hmod0 : (0 : Int)
      ≤ ((i : Int) + delta) % ((selectable_sign_in_options w).length : Int) :=
    Int.emod_nonneg _ (by exact_mod_cast Nat.pos_iff_ne_zero.mp hlen)
  have hmodlt : ((i : Int) + delta) % ((selectable_sign_in_options w).length : Int)
      < ((selectable_sign_in_options w).length : Int) :=
    Int.emod_lt_of_pos _ (by exact_mod_cast hlen)
  have hidx : ((((i : Int) + delta)
      % ((selectable_sign_in_options w).length : Int)).toNat)
      < (selectable_sign_in_options w).length := by omega
  simp only [move_highlight, hne, Bool.false_eq_true, if_false, hi, Option.getD_some]
  rw [List.getD_eq_getElem?_getD, List.get?_eq_getElem?,
    List.getElem?_eq_getElem hidx]
  simp

/-- C1: counterexample. With the forced-login method Api, the ChatGpt option
is disallowed, yet selecting it is a completely silent no-op: no localized
error is surfaced and the highlighted selection is not reset to the first
allowed option (ApiKey), contradicting the claim that selecting any disallowed
option surfaces an error and resets the highlight. -/
theorem C1_counterexample :
    let w : AuthModeWidget := pickWidget (some ForcedLoginMethod.Api)
    is_chatgpt_login_allowed w = false
    ∧ handle_sign_in_option envEn w SignInOption.ChatGpt = (w, [])
    ∧ (handle_sign_in_option envEn w SignInOption.ChatGpt).1.error = none
    ∧ (selectable_sign_in_options w).head? = some SignInOption.ApiKey
    ∧ (handle_sign_in_option envEn w SignInOption.ChatGpt).1.highlighted_mode
        = SignInOption.ChatGpt := by
  decide

/-- C1 (amended): selecting a disallowed option never starts a background
task; for the disallowed ChatGpt and DeviceCode options the selection is a
completely silent no-op (state, error and highlight untouched, no effects);
for the disallowed ApiKey option it surfaces the localized API-key-disabled
error, resets the highlight to ChatGpt (the first allowed option), and sets
the state to PickMode. -/
theorem C1_amended_disallowed_selection (env : Env) (w : AuthModeWidget)
    (opt : SignInOption) (hdis : optionAllowed w opt = false) :
    startsBackgroundTask (handle_sign_in_option env w opt).2 = false
    ∧ ((opt = SignInOption.ChatGpt ∨ opt = SignInOption.DeviceCode) →
        handle_sign_in_option env w opt = (w, []))
    ∧ (opt = SignInOption.ApiKey →
        (handle_sign_in_option env w opt).1.sign_in_state = SignInState.PickMode
        ∧ (handle_sign_in_option env w opt).1.error
            = some (tr env API_KEY_DISABLED_MESSAGE "API key 登录已禁用。")
        ∧ (handle_sign_in_option env w opt).1.highlighted_mode = SignInOption.ChatGpt
        ∧ (selectable_sign_in_options (handle_sign_in_option env w opt).1).head?
            = some SignInOption.ChatGpt
        ∧ (handle_sign_in_option env w opt).2
            = w.sign_in_state.dropEffects ++ [Effect.scheduleFrame]) := by
  cases opt with
  | ChatGpt =>
    simp only [optionAllowed] at hdis
    refine ⟨?_, fun _ => ?_, fun h => by simp at h⟩ <;>
      simp [handle_sign_in_option, hdis, startsBackgroundTask]
  | DeviceCode =>
    simp only [optionAllowed] at hdis
    refine ⟨?_, fun _ => ?_, fun h => by simp at h⟩ <;>
      simp [handle_sign_in_option, hdis, startsBackgroundTask]
  | ApiKey =>
    simp only [optionAllowed] at hdis
    have hf : w.forced_login_method = some ForcedLoginMethod.Chatgpt := by
      cases hf0 : w.forced_login_method with
      | none => rw [is_api_login_allowed, hf0] at hdis; simp at hdis
      | some f =>
        cases f with
        | Chatgpt => rfl
        | Api => rw [is_api_login_allowed, hf0] at hdis; simp at hdis
    have hfx : startsBackgroundTask
        (w.sign_in_state.dropEffects ++ [Effect.scheduleFrame]) = false := by
      rcases dropEffects_eq_nil_or_shutdown w.sign_in_state with h | ⟨k, h⟩ <;>
        simp [h, startsBackgroundTask]
    refine ⟨?_, fun h => by simp at h, fun _ => ⟨?_, ?_, ?_, ?_, ?_⟩⟩ <;>
      simp [handle_sign_in_option, hdis, disallow_api_login, writeSignInState,
        selectable_sign_in_options, is_chatgpt_login_allowed,
        is_api_login_allowed, hf, hfx]

/-- C7: submitting the API key with Enter trims whitespace; when the trimmed
buffer is empty the submission is rejected with the localized
key-cannot-be-empty error, the state stays ApiKeyEntry with the buffer
unchanged, and the credential store is not invoked. -/
theorem C7_empty_api_key_rejected (env : Env) (hm : SignInOption)
    (e0 : Option String) (ls : LoginStatus) (flm : Option ForcedLoginMethod)
    (s : ApiKeyInputState) (kind : KeyEventKind) (mods : KeyModifiers)
    (hempty : (strTrim s.value).isEmpty = true) :
    let w : AuthModeWidget :=
      { highlighted_mode := hm, error := e0,
        sign_in_state := SignInState.ApiKeyEntry s, login_status := ls,
        forced_login_method := flm }
    let ke : KeyEvent := { code := KeyCode.Enter, kind := kind, modifiers := mods }
    handle_key_event env w ke
      = ({ w with error := some (tr env "API key cannot be empty" "API key 不能为空") },
         [Effect.scheduleFrame])
    ∧ (∀ k, Effect.storeWrite k ∉ (handle_key_event env w ke).2) := by
  constructor
  · simp [handle_key_event, handle_api_key_entry_key_event, hempty]
  · intro k
    simp [handle_key_event, handle_api_key_entry_key_event, hempty]

/-- C6: when the credential-store write fails for a submitted key, the state
remains or returns to ApiKeyEntry, the attempted value is restored into the
buffer when the buffer was otherwise empty, the prefill flag is cleared, the
error text of the store is surfaced verbatim inside the localized message, and
login_status is unchanged. -/
theorem C6_store_failure_returns_to_entry (env : Env) (hm : SignInOption)
    (e0 : Option String) (st : SignInState) (ls : LoginStatus)
    (flm : Option ForcedLoginMethod) (api_key err : String)
    (hallow : is_api_login_allowed
        { highlighted_mode := hm, error := e0, sign_in_state := st,
          login_status := ls, forced_login_method := flm } = true)
    (hstore : env.store api_key = Except.error err) :
    let r := save_api_key env
      { highlighted_mode := hm, error := e0, sign_in_state := st,
        login_status := ls, forced_login_method := flm } api_key
    (∃ s', r.1.sign_in_state = SignInState.ApiKeyEntry s'
        ∧ s'.prepopulated_from_env = false)
    ∧ (∀ s, st = SignInState.ApiKeyEntry s →
        r.1.sign_in_state = SignInState.ApiKeyEntry
          { value := if s.value.isEmpty then s.value ++ api_key else s.value,
            prepopulated_from_env := false })
    ∧ ((∀ s, st ≠ SignInState.ApiKeyEntry s) →
        r.1.sign_in_state = SignInState.ApiKeyEntry
          { value := api_key, prepopulated_from_env := false })
    ∧ r.1.error
        = some (tr env "Failed to save API key:" "保存 API key 失败：" ++ " " ++ err)
    ∧ (∃ p, r.1.error = some (p ++ err))
    ∧ r.1.login_status = ls := by
  cases st with
  | ApiKeyEntry s =>
    refine ⟨⟨{ value := if s.value.isEmpty then s.value ++ api_key else s.value,
               prepopulated_from_env := false }, ?_, rfl⟩,
      fun s0 hs0 => ?_, fun hno => absurd rfl (hno s), ?_,
      ⟨tr env "Failed to save API key:" "保存 API key 失败：" ++ " ", ?_⟩, ?_⟩ <;>
      simp_all [save_api_key, hallow, hstore, String.append_assoc]
  | PickMode =>
    refine ⟨⟨{ value := api_key, prepopulated_from_env := false }, ?_, rfl⟩,
      fun s0 hs0 => by simp at hs0, fun _ => ?_, ?_,
      ⟨tr env "Failed to save API key:" "保存 API key 失败：" ++ " ", ?_⟩, ?_⟩ <;>
      simp [save_api_key, hallow, hstore, writeSignInState, String.append_assoc]
  | ChatGptContinueInBrowser s =>
    refine ⟨⟨{ value := api_key, prepopulated_from_env := false }, ?_, rfl⟩,
      fun s0 hs0 => by simp at hs0, fun _ => ?_, ?_,
      ⟨tr env "Failed to save API key:" "保存 API key 失败：" ++ " ", ?_⟩, ?_⟩ <;>
      simp [save_api_key, hallow, hstore, writeSignInState, String.append_assoc]
  | ChatGptDeviceCode s =>
    refine ⟨⟨{ value := api_key, prepopulated_from_env := false }, ?_, rfl⟩,
      fun s0 hs0 => by simp at hs0, fun _ => ?_, ?_,
      ⟨tr env "Failed to save API key:" "保存 API key 失败：" ++ " ", ?_⟩, ?_⟩ <;>
      simp [save_api_key, hallow, hstore, writeSignInState, String.append_assoc]
  | ChatGptSuccessMessage =>
    refine ⟨⟨{ value := api_key, prepopulated_from_env := false }, ?_, rfl⟩,
      fun s0 hs0 => by simp at hs0, fun _ => ?_, ?_,
      ⟨tr env "Failed to save API key:" "保存 API key 失败：" ++ " ", ?_⟩, ?_⟩ <;>
      simp [save_api_key, hallow, hstore, writeSignInState, String.append_assoc]
  | ChatGptSuccess =>
    refine ⟨⟨{ value := api_key, prepopulated_from_env := false }, ?_, rfl⟩,
      fun s0 hs0 => by simp at hs0, fun _ => ?_, ?_,
      ⟨tr env "Failed to save API key:" "保存 API key 失败：" ++ " ", ?_⟩, ?_⟩ <;>
      simp [save_api_key, hallow, hstore, writeSignInState, String.append_assoc]
  | ApiKeyConfigured =>
    refine ⟨⟨{ value := api_key, prepopulated_from_env := false }, ?_, rfl⟩,
      fun s0 hs0 => by simp at hs0, fun _ => ?_, ?_,
      ⟨tr env "Failed to save API key:" "保存 API key 失败：" ++ " ", ?_⟩, ?_⟩ <;>
      simp [save_api_key, hallow, hstore, writeSignInState, String.append_assoc]

/-- Whatever save_api_key leaves in an ApiKeyEntry state has the prefill flag
cleared. -/
theorem save_api_key_clears_prefill (env : Env) (w : AuthModeWidget)
    (key : String) (s' : ApiKeyInputState)
    (hres : (save_api_key env w key).1.sign_in_state = SignInState.ApiKeyEntry s') :
    s'.prepopulated_from_env = false := by
  by_cases hallow : is_api_login_allowed w = true
  · cases hstore : env.store key with
    | ok u =>
      rw [show (save_api_key env w key).1.sign_in_state
          = SignInState.ApiKeyConfigured by
        simp [save_api_key, hallow, hstore, writeSignInState]] at hres
      simp at hres
    | error e =>
      cases hst : w.sign_in_state with
      | ApiKeyEntry s0 =>
        rw [show (save_api_key env w key).1.sign_in_state
            = SignInState.ApiKeyEntry
              { value := if s0.value.isEmpty then s0.value ++ key else s0.value,
                prepopulated_from_env := false } by
          simp [save_api_key, hallow, hstore, hst]] at hres
        simp at hres
        rw [← hres]
      | PickMode =>
        rw [show (save_api_key env w key).1.sign_in_state
            = SignInState.ApiKeyEntry
              { value := key, prepopulated_from_env := false } by
          simp [save_api_key, hallow, hstore, hst, writeSignInState]] at hres
        simp at hres
        rw [← hres]
      | ChatGptContinueInBrowser s0 =>
        rw [show (save_api_key env w key).1.sign_in_state
            = SignInState.ApiKeyEntry
              { value := key, prepopulated_from_env := false } by
          simp [save_api_key, hallow, hstore, hst, writeSignInState]] at hres
        simp at hres
        rw [← hres]
      | ChatGptDeviceCode s0 =>
        rw [show (save_api_key env w key).1.sign_in_state
            = SignInState.ApiKeyEntry
              { value := key, prepopulated_from_env := false } by
          simp [save_api_key, hallow, hstore, hst, writeSignInState]] at hres
        simp at hres
        rw [← hres]
      | ChatGptSuccessMessage =>
        rw [show (save_api_key env w key).1.sign_in_state
            = SignInState.ApiKeyEntry
              { value := key, prepopulated_from_env := false } by
          simp [save_api_key, hallow, hstore, hst, writeSignInState]] at hres
        simp at hres
        rw [← hres]
      | ChatGptSuccess =>
        rw [show (save_api_key env w key).1.sign_in_state
            = SignInState.ApiKeyEntry
              { value := key, prepopulated_from_env := false } by
          simp [save_api_key, hallow, hstore, hst, writeSignInState]] at hres
        simp at hres
        rw [← hres]
      | ApiKeyConfigured =>
        rw [show (save_api_key env w key).1.sign_in_state
            = SignInState.ApiKeyEntry
              { value := key, prepopulated_from_env := false } by
          simp [save_api_key, hallow, hstore, hst, writeSignInState]] at hres
        simp at hres
        rw [← hres]
  · have hallow' : is_api_login_allowed w = false := by
      simpa using hallow
    rw [show (save_api_key env w key).1.sign_in_state = SignInState.PickMode by
      simp [save_api_key, hallow', disallow_api_login, writeSignInState]] at hres
    simp at hres

/-- A key event handled in the ApiKeyEntry state leaves the prefill flag set
only when the entry state is completely untouched. -/
theorem api_entry_key_keeps_prefill_only_if_untouched (env : Env)
    (hm : SignInOption) (e0 : Option String) (ls : LoginStatus)
    (flm : Option ForcedLoginMethod) (ke : KeyEvent) (s s' : ApiKeyInputState)
    (hres : (handle_key_event env
        { highlighted_mode := hm, error := e0,
          sign_in_state := SignInState.ApiKeyEntry s, login_status := ls,
          forced_login_method := flm } ke).1.sign_in_state
      = SignInState.ApiKeyEntry s')
    (hflag : s'.prepopulated_from_env = true) : s' = s := by
  obtain ⟨code, kind, mods⟩ := ke
  cases code with
  | Up =>
    simp [handle_key_event, handle_api_key_entry_key_event] at hres
    exact hres.symm
  | Down =>
    simp [handle_key_event, handle_api_key_entry_key_event] at hres
    exact hres.symm
  | Enter =>
    by_cases hemp : (strTrim s.value).isEmpty
    · simp [handle_key_event, handle_api_key_entry_key_event, hemp] at hres
      exact hres.symm
    · simp only [handle_key_event, handle_api_key_entry_key_event,
        Bool.not_eq_true] at hres
      simp only [hemp] at hres
      simp at hres
      have := save_api_key_clears_prefill env _ _ _ hres
      rw [this] at hflag
      simp at hflag
  | Esc =>
    simp [handle_key_event, handle_api_key_entry_key_event,
      writeSignInState] at hres
  | Backspace =>
    by_cases hb : s.prepopulated_from_env
    · simp [handle_key_event, handle_api_key_entry_key_event, hb] at hres
      rw [← hres] at hflag
      simp at hflag
    · simp [handle_key_event, handle_api_key_entry_key_event, hb] at hres
      rw [← hres] at hflag
      simp [hb] at hflag
  | Char c =>
    by_cases hok : (kind = KeyEventKind.Press ∧ mods.superKey = false
        ∧ mods.control = false ∧ mods.alt = false)
    · by_cases hb : s.prepopulated_from_env
      · simp [handle_key_event, handle_api_key_entry_key_event, hok, hb] at hres
        rw [← hres] at hflag
        simp at hflag
      · simp [handle_key_event, handle_api_key_entry_key_event, hok, hb] at hres
        rw [← hres] at hflag
        simp [hb] at hflag
    · simp [handle_key_event, handle_api_key_entry_key_event, hok] at hres
      exact hres.symm
  | Other =>
    simp [handle_key_event, handle_api_key_entry_key_event] at hres
    exact hres.symm

/-- A paste handled in the ApiKeyEntry state leaves the prefill flag set only
when the entry state is completely untouched. -/
theorem api_entry_paste_keeps_prefill_only_if_untouched (hm : SignInOption)
    (e0 : Option String) (ls : LoginStatus) (flm : Option ForcedLoginMethod)
    (pasted : String) (s s' : ApiKeyInputState)
    (hres : (handle_paste
        { highlighted_mode := hm, error := e0,
          sign_in_state := SignInState.ApiKeyEntry s, login_status := ls,
          forced_login_method := flm } pasted).1.sign_in_state
      = SignInState.ApiKeyEntry s')
    (hflag : s'.prepopulated_from_env = true) : s' = s := by
  by_cases hemp : (strTrim pasted).isEmpty
  · simp [handle_paste, handle_api_key_entry_paste, hemp] at hres
    exact hres.symm
  · by_cases hb : s.prepopulated_from_env
    · simp [handle_paste, handle_api_key_entry_paste, hemp, hb] at hres
      rw [← hres] at hflag
      simp at hflag
    · simp [handle_paste, handle_api_key_entry_paste, hemp, hb] at hres
      rw [← hres] at hflag
      simp [hb] at hflag

/-- start_api_key_entry sets the prefill flag only together with the
environment-sourced value, assuming any preexisting entry state already
satisfied that discipline. -/
theorem start_api_key_entry_prefill_from_env (env : Env) (hm : SignInOption)
    (e0 : Option String) (ls : LoginStatus) (flm : Option ForcedLoginMethod)
    (st0 : SignInState) (s' : ApiKeyInputState)
    (hpre : ∀ s0, st0 = SignInState.ApiKeyEntry s0 →
      s0.prepopulated_from_env = true → env.envApiKey = some s0.value)
    (hres : (start_api_key_entry env
        { highlighted_mode := hm, error := e0, sign_in_state := st0,
          login_status := ls, forced_login_method := flm }).1.sign_in_state
      = SignInState.ApiKeyEntry s')
    (hflag : s'.prepopulated_from_env = true) : env.envApiKey = some s'.value := by
  by_cases hallow : is_api_login_allowed
      { highlighted_mode := hm, error := e0, sign_in_state := st0,
        login_status := ls, forced_login_method := flm } = true
  · cases st0 with
    | ApiKeyEntry s0 =>
      by_cases hv : s0.value.isEmpty
      · cases he : env.envApiKey with
        | some p =>
          simp [start_api_key_entry, hallow, hv, he] at hres
          rw [← hres]
        | none =>
          simp [start_api_key_entry, hallow, hv, he] at hres
          rw [← hres] at hflag
          simp at hflag
      · simp [start_api_key_entry, hallow, hv] at hres
        exact hres ▸ hpre s0 rfl (hres ▸ hflag)
    | PickMode =>
      cases he : env.envApiKey with
      | some p =>
        simp [start_api_key_entry, hallow, writeSignInState, he] at hres
        rw [← hres]
      | none =>
        simp [start_api_key_entry, hallow, writeSignInState, he] at hres
        rw [← hres] at hflag
        simp at hflag
    | ChatGptContinueInBrowser s0 =>
      cases he : env.envApiKey with
      | some p =>
        simp [start_api_key_entry, hallow, writeSignInState, he] at hres
        rw [← hres]
      | none =>
        simp [start_api_key_entry, hallow, writeSignInState, he] at hres
        rw [← hres] at hflag
        simp at hflag
    | ChatGptDeviceCode s0 =>
      cases he : env.envApiKey with
      | some p =>
        simp [start_api_key_entry, hallow, writeSignInState, he] at hres
        rw [← hres]
      | none =>
        simp [start_api_key_entry, hallow, writeSignInState, he] at hres
        rw [← hres] at hflag
        simp at hflag
    | ChatGptSuccessMessage =>
      cases he : env.envApiKey with
      | some p =>
        simp [start_api_key_entry, hallow, writeSignInState, he] at hres
        rw [← hres]
      | none =>
        simp [start_api_key_entry, hallow, writeSignInState, he] at hres
        rw [← hres] at hflag
        simp at hflag
    | ChatGptSuccess =>
      cases he : env.envApiKey with
      | some p =>
        simp [start_api_key_entry, hallow, writeSignInState, he] at hres
        rw [← hres]
      | none =>
        simp [start_api_key_entry, hallow, writeSignInState, he] at hres
        rw [← hres] at hflag
        simp at hflag
    | ApiKeyConfigured =>
      cases he : env.envApiKey with
      | some p =>
        simp [start_api_key_entry, hallow, writeSignInState, he] at hres
        rw [← hres]
      | none =>
        simp [start_api_key_entry, hallow, writeSignInState, he] at hres
        rw [← hres] at hflag
        simp at hflag
  · have hallow' : is_api_login_allowed
        { highlighted_mode := hm, error := e0, sign_in_state := st0,
          login_status := ls, forced_login_method := flm } = false := by
      simpa using hallow
    simp [start_api_key_entry, hallow', disallow_api_login,
      writeSignInState] at hres

/-- C4: in ApiKeyEntry the prepopulated_from_env flag is true only while the
buffer still equals the environment-sourced value verbatim. Plain character
input on an env-prefilled buffer replaces the whole buffer and clears the
flag; backspace on an env-prefilled buffer clears the whole buffer in one step
and clears the flag, while on a manually-typed buffer it deletes one
character; a paste replaces an env-prefilled buffer and appends to a
manually-typed one; any key event or paste that modifies the buffer clears the
flag; and start_api_key_entry sets the flag only together with the
environment-sourced value, so the flag always certifies that the buffer equals
that value verbatim. -/
theorem C4_prefill_flag_discipline (env : Env) (hm : SignInOption)
    (e0 : Option String) (ls : LoginStatus) (flm : Option ForcedLoginMethod)
    (v : String) (c : Char) (pasted : String)
    (hp : (strTrim pasted).isEmpty = false) :
    let wOf : ApiKeyInputState → AuthModeWidget := fun st =>
      { highlighted_mode := hm, error := e0,
        sign_in_state := SignInState.ApiKeyEntry st, login_status := ls,
        forced_login_method := flm }
    handle_key_event env (wOf { value := v, prepopulated_from_env := true })
        { code := KeyCode.Char c, kind := KeyEventKind.Press,
          modifiers := KeyModifiers.empty }
      = ({ wOf { value := String.push "" c, prepopulated_from_env := false }
            with error := none }, [Effect.scheduleFrame])
    ∧ handle_key_event env (wOf { value := v, prepopulated_from_env := true })
        { code := KeyCode.Backspace, kind := KeyEventKind.Press,
          modifiers := KeyModifiers.empty }
      = ({ wOf { value := "", prepopulated_from_env := false }
            with error := none }, [Effect.scheduleFrame])
    ∧ handle_key_event env (wOf { value := v, prepopulated_from_env := false })
        { code := KeyCode.Backspace, kind := KeyEventKind.Press,
          modifiers := KeyModifiers.empty }
      = ({ wOf { value := strPop v, prepopulated_from_env := false }
            with error := none }, [Effect.scheduleFrame])
    ∧ handle_paste (wOf { value := v, prepopulated_from_env := true }) pasted
      = ({ wOf { value := strTrim pasted, prepopulated_from_env := false }
            with error := none }, [Effect.scheduleFrame])
    ∧ handle_paste (wOf { value := v, prepopulated_from_env := false }) pasted
      = ({ wOf { value := v ++ strTrim pasted, prepopulated_from_env := false }
            with error := none }, [Effect.scheduleFrame])
    ∧ (∀ ke s s',
        (handle_key_event env (wOf s) ke).1.sign_in_state
            = SignInState.ApiKeyEntry s' →
        s'.prepopulated_from_env = true → s' = s)
    ∧ (∀ p s s',
        (handle_paste (wOf s) p).1.sign_in_state = SignInState.ApiKeyEntry s' →
        s'.prepopulated_from_env = true → s' = s)
    ∧ (∀ st0 s',
        (∀ s0, st0 = SignInState.ApiKeyEntry s0 →
          s0.prepopulated_from_env = true → env.envApiKey = some s0.value) →
        (start_api_key_entry env
            { highlighted_mode := hm, error := e0, sign_in_state := st0,
              login_status := ls, forced_login_method := flm }).1.sign_in_state
          = SignInState.ApiKeyEntry s' →
        s'.prepopulated_from_env = true → env.envApiKey = some s'.value) := by
  refine ⟨?_, ?_, ?_, ?_, ?_,
    fun ke s s' hres hflag =>
      api_entry_key_keeps_prefill_only_if_untouched env hm e0 ls flm ke s s'
        hres hflag,
    fun p s s' hres hflag =>
      api_entry_paste_keeps_prefill_only_if_untouched hm e0 ls flm p s s'
        hres hflag,
    fun st0 s' hpre hres hflag =>
      start_api_key_entry_prefill_from_env env hm e0 ls flm st0 s' hpre
        hres hflag⟩
  · simp [handle_key_event, handle_api_key_entry_key_event, KeyModifiers.empty]
  · simp [handle_key_event, handle_api_key_entry_key_event]
  · simp [handle_key_event, handle_api_key_entry_key_event]
  · simp [handle_paste, handle_api_key_entry_paste, hp]
  · simp [handle_paste, handle_api_key_entry_paste, hp]

/-- Witness for C1 (amended): under the ChatGPT-only configuration, selecting
the disallowed ApiKey option lands in PickMode. -/
theorem C1_amended_disallowed_selection_witness :
    (handle_sign_in_option envEn (pickWidget (some ForcedLoginMethod.Chatgpt))
        SignInOption.ApiKey).1.sign_in_state = SignInState.PickMode :=
  ((C1_amended_disallowed_selection envEn
      (pickWidget (some ForcedLoginMethod.Chatgpt)) SignInOption.ApiKey
      (by decide)).2.2 rfl).1

/-- Witness for C4: a plain character typed over the env-prefilled buffer
replaces the whole buffer and clears the flag. -/
theorem C4_prefill_flag_discipline_witness :
    handle_key_event envEn
        { highlighted_mode := SignInOption.ChatGpt, error := none,
          sign_in_state := SignInState.ApiKeyEntry
            { value := "sk-env", prepopulated_from_env := true },
          login_status := LoginStatus.NotAuthenticated,
          forced_login_method := none }
        { code := KeyCode.Char 'x', kind := KeyEventKind.Press,
          modifiers := KeyModifiers.empty }
      = ({ highlighted_mode := SignInOption.ChatGpt, error := none,
           sign_in_state := SignInState.ApiKeyEntry
             { value := String.push "" 'x', prepopulated_from_env := false },
           login_status := LoginStatus.NotAuthenticated,
           forced_login_method := none }, [Effect.scheduleFrame]) :=
  (C4_prefill_flag_discipline envEn SignInOption.ChatGpt none
    LoginStatus.NotAuthenticated none "sk-env" 'x' " sk-new " (by decide)).1

/-- Witness for C6: a failing store write keeps the entry state and surfaces
the store error verbatim after the localized message. -/
theorem C6_store_failure_returns_to_entry_witness :
    (save_api_key envStoreFail
        { highlighted_mode := SignInOption.ChatGpt, error := none,
          sign_in_state := SignInState.ApiKeyEntry
            { value := "abc", prepopulated_from_env := false },
          login_status := LoginStatus.NotAuthenticated,
          forced_login_method := none } "sk-new").1.error
      = some (tr envStoreFail "Failed to save API key:" "保存 API key 失败："
          ++ " " ++ "disk full") :=
  (C6_store_failure_returns_to_entry envStoreFail SignInOption.ChatGpt none
    (SignInState.ApiKeyEntry { value := "abc", prepopulated_from_env := false })
    LoginStatus.NotAuthenticated none "sk-new" "disk full"
    (by decide) rfl).2.2.2.1

/-- Witness for C7: submitting a whitespace-only key is rejected with the
localized error, leaving the buffer untouched. -/
theorem C7_empty_api_key_rejected_witness :
    handle_key_event envEn
        { highlighted_mode := SignInOption.ChatGpt, error := none,
          sign_in_state := SignInState.ApiKeyEntry
            { value := "   ", prepopulated_from_env := false },
          login_status := LoginStatus.NotAuthenticated,
          forced_login_method := none }
        { code := KeyCode.Enter, kind := KeyEventKind.Press,
          modifiers := KeyModifiers.empty }
      = ({ highlighted_mode := SignInOption.ChatGpt,
           error := some (tr envEn "API key cannot be empty" "API key 不能为空"),
           sign_in_state := SignInState.ApiKeyEntry
             { value := "   ", prepopulated_from_env := false },
           login_status := LoginStatus.NotAuthenticated,
           forced_login_method := none }, [Effect.scheduleFrame]) :=
  (C7_empty_api_key_rejected envEn SignInOption.ChatGpt none
    LoginStatus.NotAuthenticated none
    { value := "   ", prepopulated_from_env := false }
    KeyEventKind.Press KeyModifiers.empty (by decide)).1

/-- Witness for C9: in the unrestricted configuration, moving the highlight by
-1 from index 0 lands on the option selected by the modular index. -/
theorem C9_move_highlight_wraps_witness :
    (selectable_sign_in_options (pickWidget none)).get?
        (((((0 : Nat) : Int) + (-1))
          % ((selectable_sign_in_options (pickWidget none)).length : Int)).toNat)
      = some (move_highlight (pickWidget none) (-1)).highlighted_mode :=
  (C9_move_highlight_wraps (pickWidget none) (-1) 0 (by decide)).1

end OnboardingAuth
